import Mathlib

/-
Verification development for the DataQueryBot repository.

The repository implements a natural-language-to-SQL chatbot: a question is
turned into a SQLite statement by an external text-generation service
(`nl_to_sql`), the statement is executed with `pandas.read_sql_query`, and on
execution failure it is repaired by a second service call
(`fix_sql_with_error`), with a bounded retry loop; the final table or error is
summarized by a third service call (`summarize_result`), which also appends the
(question, answer) pair to conversation memory.  Two variants of the turn exist:
`main.main` (console loop in `main.py`) and `app.process_query` (UI in
`app.py`); the UI variant additionally normalizes the answer's spacing with
three regular-expression substitutions.

This file shallowly embeds those functions.  The external text-generation
service and the SQL execution backend are modelled as oracles (`Oracles`): the
embedded control flow is exactly the source's, while the oracles supply the
responses of the external services.  The repair oracle is indexed by the call
number to model a service whose responses form a sequence across calls.
-/

namespace DataQueryBot

/-- A role-tagged chat message, as in the prompt lists of `main.py`. -/
structure Msg where
  role : String
  content : String
  deriving DecidableEq

/-- A cell value of a pandas DataFrame as produced by `read_sql_query` over the
SQLite store built by the ETL (which stores columns as integers or text).
`pyStr` is Python's `str` on these values. -/
inductive PyVal where
  | pInt (i : Int)
  | pStr (s : String)
  deriving DecidableEq

/-- Python `str()` of a cell value. -/
def pyStr : PyVal → String
  | .pInt i => toString i
  | .pStr s => s

/-- A tabular result: column headers and rows, as returned by
`pandas.read_sql_query` (row order and header order significant). -/
structure Table where
  cols : List String
  rows : List (List PyVal)
  deriving DecidableEq

/-- `df.empty` in pandas: true when either axis has length zero. -/
def Table.isEmptyDf (t : Table) : Bool :=
  t.rows.length = 0 || t.cols.length = 0

/-- `df.iat[0, 0]`: the single cell of a 1x1 result. -/
def Table.cell00 (t : Table) : PyVal :=
  (t.rows.headD []).headD (.pStr "")

/-- Python `str.strip()`: leading and trailing whitespace removed (modelled
for ASCII whitespace). -/
def pyStrip (s : String) : String :=
  ⟨(((s.data.dropWhile Char.isWhitespace).reverse).dropWhile Char.isWhitespace).reverse⟩

/-- Python `str.startswith(pre)`. -/
def pyStartsWith (s pre : String) : Bool :=
  List.isPrefixOf pre.data s.data

/-- Doubling of embedded quotes inside a quoted CSV field. -/
def escQuote : List Char → List Char
  | [] => []
  | '"' :: r => '"' :: '"' :: escQuote r
  | c :: r => c :: escQuote r

/-- Whether `pandas.to_csv` must quote a field (minimal quoting: the field
holds a comma, a quote or a line break). -/
def csvNeedsQuote (s : String) : Bool :=
  s.data.any fun c => c == ',' || c == '"' || c == '\n' || c == '\r'

/-- One CSV field as written by `pandas.to_csv`. -/
def csvField (s : String) : String :=
  if csvNeedsQuote s then "\"" ++ (⟨escQuote s.data⟩ : String) ++ "\"" else s

/-- Comma-separated join. -/
def joinSep (sep : String) : List String → String
  | [] => ""
  | [x] => x
  | x :: xs => x ++ sep ++ joinSep sep xs

/-- One CSV line (no terminator). -/
def csvRow (cells : List String) : String :=
  joinSep "," (cells.map csvField)

/-- Concatenation of a list of strings. -/
def strJoin (l : List String) : String :=
  l.foldl (fun r s => r ++ s) ""

/-- `df.to_csv(index=False)`: header line then each row, each line terminated
by a newline; headers and row order preserved. -/
def toCsv (t : Table) : String :=
  csvRow t.cols ++ "\n" ++ strJoin (t.rows.map fun r => csvRow (r.map pyStr) ++ "\n")

/-- Modelled from the spec: the conversation-memory objects are the langchain
classes `ConversationBufferWindowMemory(k=3)` (in `main.py`) and
`ConversationBufferMemory` (in `app.py`), library code not part of this
repository.  Per the spec they are an ordered sequence of (question, answer)
turns; the window variant serves only the `k` most recent turns, evicting the
oldest first; the plain buffer serves all turns.  `window = some k` models the
window variant, `window = none` the unbounded buffer. -/
structure MemoryObj where
  window : Option Nat
  turns : List (String × String)
  deriving DecidableEq

/-- Modelled from the spec: `save_context` appends one completed
(question, answer) turn at the end of the memory. -/
def saveContext (m : MemoryObj) (q a : String) : MemoryObj :=
  { m with turns := m.turns ++ [(q, a)] }

/-- Modelled from the spec: `load_memory_variables` serves the stored turns in
insertion order, restricted to the most recent `k` turns for the window
variant (oldest evicted first). -/
def loadHistory (m : MemoryObj) : List (String × String) :=
  match m.window with
  | some k => m.turns.drop (m.turns.length - k)
  | none => m.turns

/-- Modelled from the spec: rendering of the loaded turns as a linear
transcript for prompt inclusion (the exact serialization of the langchain
message objects is not semantically relevant to any claim; order is). -/
def serializeTurns (ts : List (String × String)) : String :=
  strJoin (ts.map fun p => "Human: " ++ p.1 ++ "\nAI: " ++ p.2 ++ "\n")

/-- The history string interpolated into every prompt. -/
def renderHistory (m : MemoryObj) : String :=
  serializeTurns (loadHistory m)

/-- Appending a whole list of turns, one `saveContext` at a time. -/
def appendTurns (m : MemoryObj) (ts : List (String × String)) : MemoryObj :=
  ts.foldl (fun acc p => saveContext acc p.1 p.2) m

/-- Result of one `pandas.read_sql_query` call: a table, or the text of the
raised exception. -/
inductive ExecResult where
  | table (t : Table)
  | failure (msg : String)
  deriving DecidableEq

/-- The external collaborators of one turn.  `genRaw`, `fixRaw` and
`summaryRaw` are the chat-completion service (`.error` models a raised
exception from the client; `.ok` a returned completion); `fixRaw` is indexed
by the call number within the turn, modelling the response sequence of
repeated calls.  `exec` is `pandas.read_sql_query` against the session's
engine: deterministic in the statement text for a fixed store. -/
structure Oracles where
  genRaw : List Msg → Except String String
  fixRaw : Nat → List Msg → Except String String
  summaryRaw : List Msg → Except String String
  exec : String → ExecResult

/-- `SCHEMA_DESCRIPTION` from `main.py` (static prompt text). -/
def SCHEMA_DESCRIPTION : String :=
  "\n(Note: Text in parentheses indicates “column_name (TYPE, brief‐description)”)\n\nUse **SQLite** syntax only. Do not use any MySQL‐specific functions\nsuch as `DATE_SUB`, `CURDATE()`, `DATE_FORMAT`. Instead, use\n`DATE(\x27now\x27, \x27-X days\x27)`, `DATE(\x27now\x27)`, `strftime(…)`, etc.\n\nTables:\norders(\n    order_id (UUID, primary key),\n    store_id (UUID, foreign key → stores.store_id),\n    customer_id (UUID, foreign key → customers.customer_id),\n    external_location_id (STRING, external system’s location identifier),\n    external_order_id (STRING, external system’s order identifier),\n    total_amount_in_cents (INTEGER, total order value),\n    discount_amount_in_cents (INTEGER, discount applied),\n    delivery_fee_in_cents (INTEGER, fee charged for delivery),\n    created_at (DATETIME, order creation timestamp),\n    updated_at (DATETIME, last update timestamp),\n    fulfillment_type (ENUM: “pickup”|“delivery”|“curbside”),\n    tip_amount_in_cents (INTEGER, tip given by customer),\n    service_fee_in_cents (INTEGER, platform service fee),\n    subscription_discounts_metadata (JSON, subscription discount details),\n    notes (STRING, free‐text notes on order),\n    delivery_info (JSON, delivery details like addresses/times),\n    risk_level (INTEGER, fraud risk score: 0 = low, 1 = high),\n    order_type (ENUM: “regular_checkout”|“store_credit_reload”|“gift_card”|“subscription_purchase”),\n    perdiem_platform_fee_in_cents (INTEGER, PerDiem’s platform fee),\n    scheduled_fulfillment_at (DATETIME, scheduled pickup/delivery time)\n)\ncustomers(\n    customer_id (UUID, primary key),\n    store_id (UUID, foreign key → stores.store_id),\n    external_customer_id (STRING, external system’s customer ID)\n)\nstores(\n    store_id (UUID, primary key),\n    external_store_id (STRING, external system’s store ID),\n    name (STRING, store name),\n    active (BOOLEAN, store status),\n    created_at (DATETIME, store record creation),\n    updated_at (DATETIME, store record last update),\n    delivery_fee (JSON, store’s base delivery fee settings),\n    platform_fee (JSON, store’s platform fee settings),\n    consumer_fee (JSON, consumer‐facing fees),\n    pre_sale (JSON, whether scheduled orders are allowed)\n)\n"

/-- `FEW_SHOT_SQL_PROMPT` from `main.py`: system instruction plus three worked
examples. -/
def FEW_SHOT_SQL_PROMPT : List Msg :=
  [ ⟨"system",
      SCHEMA_DESCRIPTION ++ "\n" ++
      "Convert the user’s natural language request into a valid SQLite query for this schema. " ++
      "The model should treat any possible question—simple or complex—as valid. " ++
      "Always refer to the conversation history to understand context or implied references, " ++
      "then match the intent to the available tables/columns and generate the appropriate SQLite query. " ++
      "If the user’s question relies on prior turns, use that context to disambiguate and produce a correct SQLite statement." ++
      "**Using SQLite syntax only.** Return only one SQL statement (no extra commentary). "⟩,
    ⟨"user", "Compare the number of orders between March 1–7 and March 8–14, 2025 for store \x27Migos Fine Foods\x27."⟩,
    ⟨"assistant",
      "SELECT\n" ++
      "  SUM(CASE WHEN DATE(o.created_at) BETWEEN \x272025-03-01\x27 AND \x272025-03-07\x27 THEN 1 ELSE 0 END) AS week1_count,\n" ++
      "  SUM(CASE WHEN DATE(o.created_at) BETWEEN \x272025-03-08\x27 AND \x272025-03-14\x27 THEN 1 ELSE 0 END) AS week2_count\n" ++
      "FROM orders AS o\n" ++
      "JOIN stores AS s ON o.store_id = s.store_id\n" ++
      "WHERE s.name = \x27Migos Fine Foods\x27;"⟩,
    ⟨"user", "Total revenue (in dollars) for \x27Tikka Shack\x27 from January 1 to March 31, 2025?"⟩,
    ⟨"assistant",
      "SELECT\n" ++
      "  ROUND(SUM(o.total_amount_in_cents) / 100.0, 2) AS total_revenue_in_cents\n" ++
      "FROM orders AS o\n" ++
      "JOIN stores AS s ON o.store_id = s.store_id\n" ++
      "WHERE s.name = \x27Tikka Shack\x27\n" ++
      "  AND DATE(o.created_at) BETWEEN \x272025-01-01\x27 AND \x272025-03-31\x27;"⟩,
    ⟨"user", "How many pickup orders did \x27Coffee Drip\x27 have between March 15 and March 21, 2025?"⟩,
    ⟨"assistant",
      "SELECT\n" ++
      "  COUNT(*) AS pickup_orders_week\n" ++
      "FROM orders AS o\n" ++
      "JOIN stores AS s ON o.store_id = s.store_id\n" ++
      "WHERE s.name = \x27Coffee Drip\x27\n" ++
      "  AND o.fulfillment_type = \x27pickup\x27\n" ++
      "  AND DATE(o.created_at) BETWEEN \x272025-03-15\x27 AND \x272025-03-21\x27;"⟩ ]

/-- The canonical "couldn't retrieve an answer" sentence of the summary prompt
(rule 8 of `FEW_SHOT_SUMMARY_PROMPT` in `main.py`). -/
def CANON_NO_ANSWER : String :=
  "I’m sorry, I couldn’t retrieve an answer—please rephrase or check the data."

/-- The canonical zero-match sentence of the summary prompt (rule 9 of
`FEW_SHOT_SUMMARY_PROMPT` in `main.py`). -/
def CANON_ZERO : String :=
  "It seems there are zero matching records—please verify your question."

/-- The part of the summary system instruction before the canonical no-answer
sentence (rules 1-7 and the lead-in of rule 8 of `FEW_SHOT_SUMMARY_PROMPT`). -/
def SUMMARY_RULES_A : String :=
  "You are given:\n" ++
  "• The user’s original question\n" ++
  "• The final SQL query that was executed\n" ++
  "• The resulting table (or an error message)\n" ++
  "• The conversation memory so far\n\n" ++
  "Instructions:\n" ++
  "1. Use both the SQL‐extracted table and conversation history to draw your insights and answer the question.\n" ++
  "2. If relevant, incorporate any context from the conversation memory to clarify or enrich your analysis, but do not let memory override the concrete numbers in the table.\n" ++
  "3. If the result has multiple rows, include a small markdown‐style table showing those rows.\n" ++
  "4. Immediately below that table, draw one or two brief but informative insights with precise numbers. Make sure these insights are helpful for the business. (in dollars, not cents).\n" ++
  "5. If the insights clearly point to a promotional opportunity, propose a single, concrete marketing idea.\n" ++
  "6. If there is no promotional opportunity, do not output any text about marketing at all—simply stop after your “insight” sentence(s).\n" ++
  "7. Always use only the rows shown—do not add, infer, or omit values.\n" ++
  "8. If there is an error or no rows, first consult the conversation memory to try to answer the question. If you still cannot provide an answer, reply exactly:\n" ++
  "   “"

/-- The part of the summary system instruction between the two canonical
sentences (the close of rule 8 and the lead-in of rule 9). -/
def SUMMARY_RULES_B : String :=
  "”\n9. If the single row is 0, reply exactly:\n   “"

/-- The part of the summary system instruction after the canonical zero-match
sentence (rule 10 and the final formatting note). -/
def SUMMARY_RULES_C : String :=
  "”\n10. Otherwise, for a single non‐zero row, answer in one sentence (no table needed) and only add a marketing idea if it follows logically from the insight.\n" ++
  "**For the final output, make sure all numbers and units are properly spaced and punctuated. Do not merge numbers with surrounding words (e.g., write 646.27 in revenue, not 646.27inrevenue).**"

/-- The system instruction of `FEW_SHOT_SUMMARY_PROMPT` from `main.py`: both
canonical fallback sentences are quoted verbatim inside it. -/
def SUMMARY_SYSTEM_INSTRUCTIONS : String :=
  SUMMARY_RULES_A ++ CANON_NO_ANSWER ++ SUMMARY_RULES_B ++ CANON_ZERO ++ SUMMARY_RULES_C

/-- `FEW_SHOT_SUMMARY_PROMPT` from `main.py`. -/
def FEW_SHOT_SUMMARY_PROMPT : List Msg :=
  [ ⟨"system", SUMMARY_SYSTEM_INSTRUCTIONS⟩,
    ⟨"user", "User question: How many months data of orders do I have? and what are those months?"⟩,
    ⟨"assistant", "There are two months with order data: 2025-03 and 2025-04. So the user has data for March 2025 and April 2025."⟩ ]

/-- The messages assembled by `nl_to_sql` in `main.py`. -/
def sqlMessages (hist ctx query : String) : List Msg :=
  FEW_SHOT_SQL_PROMPT ++
    [ ⟨"user", "Conversation memory so far: " ++ hist⟩,
      ⟨"user", "Context: " ++ ctx⟩,
      ⟨"user", query⟩ ]

/-- `nl_to_sql` from `main.py`: one service call; on success the stripped
completion, on a raised exception the recognizable marker string. -/
def nl_to_sql (ω : Oracles) (query ctx hist : String) : String :=
  match ω.genRaw (sqlMessages hist ctx query) with
  | .ok s => pyStrip s
  | .error e => "--ERROR IN nl_to_sql: " ++ e

/-- The messages assembled by `fix_sql_with_error` in `main.py`. -/
def fixMessages (hist question badSql errMsg ctx : String) : List Msg :=
  [ ⟨"system",
      SCHEMA_DESCRIPTION ++ "\n" ++
      "One of your previously generated SQL statements failed on SQLite with an error. " ++
      "Below is the user’s conversation history, original question, the SQL you provided, the SQLite error message, " ++
      "and the context (merchant or PerDiem internal user). " ++
      "Please correct the SQL to be valid SQLite syntax and satisfy the original request. " ++
      "Return only the corrected SQL statement (no commentary)."⟩,
    ⟨"user", "Context: " ++ ctx⟩,
    ⟨"user",
      "Conversation memory so far: " ++ hist ++ "\n" ++
      "User question: " ++ question ++ "\n" ++
      "Bad SQL: " ++ badSql ++ "\n" ++
      "SQLite error: " ++ errMsg⟩ ]

/-- `fix_sql_with_error` from `main.py`: repair-mode service call (`i` is the
call number within the turn); marker string on a raised exception. -/
def fix_sql_with_error (ω : Oracles) (i : Nat) (question badSql errMsg ctx hist : String) : String :=
  match ω.fixRaw i (fixMessages hist question badSql errMsg ctx) with
  | .ok s => pyStrip s
  | .error e => "--ERROR IN fix_sql_with_error: " ++ e

/-- The `result_content` dispatch at the top of `summarize_result` in
`main.py`: Python truthiness of `error_msg` first, then `df is None or
df.empty`, then the `(1, 1)`-shape string test `str(df.iat[0,0]) in
("0", "0.0")`, else the CSV serialization. -/
def result_content (df : Option Table) (error_msg : Option String) : String :=
  if error_msg.getD "" ≠ "" then "Error executing SQL: " ++ error_msg.getD ""
  else
    match df with
    | none => "Result: no rows returned."
    | some t =>
      if t.isEmptyDf then "Result: no rows returned."
      else
        if (t.rows.length = 1 ∧ t.cols.length = 1) ∧
            (pyStr t.cell00 = "0" ∨ pyStr t.cell00 = "0.0") then
          "Result: single value 0"
        else "Result Table:\n" ++ toCsv t

/-- The messages assembled by `summarize_result` in `main.py`. -/
def summaryMessages (hist question sqlQuery rc ctx : String) : List Msg :=
  FEW_SHOT_SUMMARY_PROMPT ++
    [ ⟨"user", "Context: " ++ ctx⟩,
      ⟨"user",
        "Conversation memory so far: " ++ hist ++ "\n" ++
        "User question: " ++ question ++ "\n" ++
        "SQL Query: " ++ sqlQuery ++ "\n" ++ rc⟩ ]

/-- `summarize_result` from `main.py`: builds the result description, calls the
service (falling back to its marker string on a raised exception), saves the
(question, summary) pair into memory, and returns the summary together with
the updated memory. -/
def summarize_result (ω : Oracles) (question sqlQuery : String) (df : Option Table)
    (error_msg : Option String) (ctx : String) (mem : MemoryObj) : String × MemoryObj :=
  let rc := result_content df error_msg
  let hist := renderHistory mem
  let summary :=
    match ω.summaryRaw (summaryMessages hist question sqlQuery rc ctx) with
    | .ok s => pyStrip s
    | .error e => "--ERROR IN summarize_result: " ++ e
  (summary, saveContext mem question summary)

/-- `MAX_RETRIES` from `main.main` and `app.process_query`. -/
def MAX_RETRIES : Nat := 3

/-- Everything the retry loop leaves behind for one turn: the final value of
`generated_sql`, `df_result` and `error_msg`, plus the trace of executed
statements and of repair-call outputs (both in order of occurrence). -/
structure LoopResult where
  sql : String
  df : Option Table
  err : Option String
  executed : List String
  fixOutputs : List String
  deriving DecidableEq

/-- The `while attempt < MAX_RETRIES` retry loop shared by `main.main` and
`app.process_query`.  `remaining = MAX_RETRIES - attempt` drives the
recursion; `attempt` is the source's counter (used as the repair-call number,
`attempt + 1` after the increment in the source).  Each iteration executes the
current statement; on success it stops with the rows; on failure it asks for a
repaired statement, stopping at once if that call returns the `--ERROR`
marker, and otherwise retries with the corrected statement. -/
def loopAux (ω : Oracles) (question ctx hist : String) :
    Nat → Nat → String → Option String → LoopResult
  | 0, _, sql, err => ⟨sql, none, err, [], []⟩
  | remaining + 1, attempt, sql, _ =>
    match ω.exec sql with
    | .table t => ⟨sql, some t, none, [sql], []⟩
    | .failure e =>
      let corrected := fix_sql_with_error ω (attempt + 1) question sql e ctx hist
      if pyStartsWith corrected "--ERROR" then
        ⟨sql, none, some e, [sql], [corrected]⟩
      else
        let out := loopAux ω question ctx hist remaining (attempt + 1) corrected (some e)
        ⟨out.sql, out.df, out.err, sql :: out.executed, corrected :: out.fixOutputs⟩

/-- The retry loop started as in the source: `attempt = 0`, `df_result = None`,
`error_msg = None`, current statement the initially generated one. -/
def runLoop (ω : Oracles) (question ctx hist gen : String) : LoopResult :=
  loopAux ω question ctx hist MAX_RETRIES 0 gen none

/-- `re.sub` for the three spacing patterns of `app.process_query`: each
pattern matches two adjacent characters (class `p` then class `q`) and the
replacement keeps both and inserts one space between them; scanning resumes
after each (non-overlapping) match, exactly as `re.sub` does. -/
def insertSpaceAt (p q : Char → Bool) : List Char → List Char
  | a :: b :: rest =>
    if p a && q b then a :: ' ' :: b :: insertSpaceAt p q rest
    else a :: insertSpaceAt p q (b :: rest)
  | l => l

/-- Whether some adjacent pair of characters matches class `p` then class `q`. -/
def hasPair (p q : Char → Bool) : List Char → Bool
  | a :: b :: rest => p a && q b || hasPair p q (b :: rest)
  | _ => false

/-- Character class of the literal `.` in the first pattern. -/
def isDot (c : Char) : Bool := c == '.'

/-- The response clean-up of `app.process_query` (lines 192-194): in order,
`\.([A-Z]) → . \1`, `([a-z])([A-Z]) → \1 \2`, `([A-Za-z])(\d) → \1 \2`.
(The character classes are the ASCII ones the Python patterns denote for
ASCII text.) -/
def cleanResponse (s : String) : String :=
  ⟨insertSpaceAt Char.isAlpha Char.isDigit
    (insertSpaceAt Char.isLower Char.isUpper
      (insertSpaceAt isDot Char.isUpper s.data))⟩

/-- A string with every space removed (used to state that the clean-up only
inserts spaces and keeps every other character in order). -/
def dropSpaces (s : String) : String :=
  ⟨s.data.filter fun c => c != ' '⟩

/-- Everything one turn produces, for either variant: the user-visible answer,
the summary before the UI clean-up, the values handed to the Summarizer, the
loop traces, and the memory after the turn. -/
structure TurnResult where
  answer : String
  rawAnswer : String
  sqlForSummary : String
  dfForSummary : Option Table
  errForSummary : Option String
  executed : List String
  fixOutputs : List String
  memAfter : MemoryObj
  deriving DecidableEq

/-- One turn of `app.process_query` (`app.py`, lines 137-200): generate; if the
generation result carries the `--ERROR` marker skip the loop and hand the
marker to the Summarizer as the error; otherwise run the retry loop; summarize
(which appends to memory); normalize the response with `cleanResponse`. -/
def appTurn (ω : Oracles) (question ctx : String) (mem : MemoryObj) : TurnResult :=
  let hist := renderHistory mem
  let generated := nl_to_sql ω question ctx hist
  let lr : LoopResult :=
    if pyStartsWith generated "--ERROR" then
      ⟨generated, none, some generated, [], []⟩
    else runLoop ω question ctx hist generated
  let sm := summarize_result ω question lr.sql lr.df lr.err ctx mem
  { answer := cleanResponse sm.1
    rawAnswer := sm.1
    sqlForSummary := lr.sql
    dfForSummary := lr.df
    errForSummary := lr.err
    executed := lr.executed
    fixOutputs := lr.fixOutputs
    memAfter := sm.2 }

/-- One turn of the console loop in `main.main` (`main.py`, lines 318-346):
on a generation marker the marker itself is printed and the turn ends —
no loop, no Summarizer call, no memory write; otherwise run the retry loop and
summarize.  No spacing clean-up is applied in this variant. -/
def consoleTurn (ω : Oracles) (question ctx : String) (mem : MemoryObj) : TurnResult :=
  let hist := renderHistory mem
  let generated := nl_to_sql ω question ctx hist
  if pyStartsWith generated "--ERROR" then
    { answer := generated
      rawAnswer := generated
      sqlForSummary := generated
      dfForSummary := none
      errForSummary := none
      executed := []
      fixOutputs := []
      memAfter := mem }
  else
    let lr := runLoop ω question ctx hist generated
    let sm := summarize_result ω question lr.sql lr.df lr.err ctx mem
    { answer := sm.1
      rawAnswer := sm.1
      sqlForSummary := lr.sql
      dfForSummary := lr.df
      errForSummary := lr.err
      executed := lr.executed
      fixOutputs := lr.fixOutputs
      memAfter := sm.2 }

/-- The initially generated statement of a turn (shared by both variants). -/
def genOf (ω : Oracles) (question ctx : String) (mem : MemoryObj) : String :=
  nl_to_sql ω question ctx (renderHistory mem)

/-- The retry-loop outcome of a turn whose initial generation succeeded. -/
def loopOf (ω : Oracles) (question ctx : String) (mem : MemoryObj) : LoopResult :=
  runLoop ω question ctx (renderHistory mem) (genOf ω question ctx mem)

/-- Helper for splitting a numeral at the decimal point. -/
def splitDotAux : List Char → List Char → List (List Char)
  | [], acc => [acc.reverse]
  | '.' :: r, acc => acc.reverse :: splitDotAux r []
  | c :: r, acc => splitDotAux r (c :: acc)

/-- Splitting a character list at every decimal point. -/
def splitDot (l : List Char) : List (List Char) :=
  splitDotAux l []

/-- Written from the spec's words, for comparison with the source's zero test:
a string is "numerically zero" when it is a decimal numeral (optional sign,
digits, optional fractional part, at least one digit) whose value is zero. -/
def isZeroNumeral (s : String) : Bool :=
  let l := match s.data with
    | '-' :: rest => rest
    | '+' :: rest => rest
    | l => l
  match splitDot l with
  | [intPart] => !intPart.isEmpty && intPart.all (· == '0')
  | [intPart, fracPart] =>
      (!intPart.isEmpty || !fracPart.isEmpty) &&
        intPart.all (· == '0') && fracPart.all (· == '0')
  | _ => false

/-- Written from the spec's words: a cell value that is numerically zero. -/
def numericallyZero : PyVal → Bool
  | .pInt i => i == 0
  | .pStr s => isZeroNumeral s

/-- A 1x1 table with a non-zero value, standing for a successful query result. -/
def tinyTable : Table := ⟨["n"], [[.pInt 7]]⟩

/-- A 1x1 table whose single cell is the integer 0. -/
def zeroTable : Table := ⟨["n"], [[.pInt 0]]⟩

/-- A table with a header but no rows. -/
def emptyTable : Table := ⟨["n"], []⟩

/-- The console variant's fresh memory: `ConversationBufferWindowMemory(k=3)`. -/
def emptyWindowMem : MemoryObj := ⟨some 3, []⟩

/-- The UI variant's fresh memory: unbounded `ConversationBufferMemory`. -/
def emptyBufferMem : MemoryObj := ⟨none, []⟩

/-- Service behavior where every repair call returns the very statement that
just failed (nothing in the source prevents this). -/
def oracleConstFix : Oracles :=
  { genRaw := fun _ => .ok "S"
    fixRaw := fun _ _ => .ok "S"
    summaryRaw := fun _ => .ok "fine"
    exec := fun _ => .failure "e" }

/-- Service behavior where the first execution fails and the repair-mode
generation call itself raises. -/
def oracleRepairGenFail : Oracles :=
  { genRaw := fun _ => .ok "S1"
    fixRaw := fun _ _ => .error "genboom"
    summaryRaw := fun _ => .ok "s"
    exec := fun _ => .failure "execboom" }

/-- Service behavior where the initial generation call raises. -/
def oracleGenFail : Oracles :=
  { genRaw := fun _ => .error "boom"
    fixRaw := fun _ _ => .ok "S"
    summaryRaw := fun _ => .ok "s"
    exec := fun _ => .table tinyTable }

/-- Service behavior where the first statement executes successfully. -/
def oracleSuccess : Oracles :=
  { genRaw := fun _ => .ok "SELECT 1"
    fixRaw := fun _ _ => .error "x"
    summaryRaw := fun _ => .ok "seven"
    exec := fun _ => .table tinyTable }

/-- Service behavior where three distinct candidates all fail to execute and
every repair call produces a fresh statement. -/
def oracleExhaust : Oracles :=
  { genRaw := fun _ => .ok "A"
    fixRaw := fun i _ => if i = 1 then .ok "B" else if i = 2 then .ok "C" else .ok "D"
    summaryRaw := fun _ => .ok "s"
    exec := fun s =>
      if s = "A" then .failure "eA"
      else if s = "B" then .failure "eB"
      else if s = "C" then .failure "eC"
      else .table tinyTable }

/-- Service behavior with a 1x1 zero result and a non-compliant summary model. -/
def oracleZeroNope : Oracles :=
  { genRaw := fun _ => .ok "S"
    fixRaw := fun _ _ => .error "x"
    summaryRaw := fun _ => .ok "Nope."
    exec := fun _ => .table zeroTable }

/-- Service behavior with a 1x1 zero result and a summary model that answers
with the canonical zero-match sentence. -/
def oracleZeroCanon : Oracles :=
  { genRaw := fun _ => .ok "S"
    fixRaw := fun _ _ => .error "x"
    summaryRaw := fun _ => .ok CANON_ZERO
    exec := fun _ => .table zeroTable }

/-- Service behavior with an empty result and a summary model that answers
with the canonical no-answer sentence. -/
def oracleEmptyCanon : Oracles :=
  { genRaw := fun _ => .ok "S"
    fixRaw := fun _ _ => .error "x"
    summaryRaw := fun _ => .ok CANON_NO_ANSWER
    exec := fun _ => .table emptyTable }

/-- Service behavior whose summary text has a letter-digit seam (the UI
clean-up would insert a space into it). -/
def oracleA1 : Oracles :=
  { genRaw := fun _ => .ok "S"
    fixRaw := fun _ _ => .error "x"
    summaryRaw := fun _ => .ok "a1"
    exec := fun _ => .table tinyTable }

/-- Service behavior where the summary call itself raises. -/
def oracleSummaryFail : Oracles :=
  { genRaw := fun _ => .ok "S"
    fixRaw := fun _ _ => .error "x"
    summaryRaw := fun _ => .error "sboom"
    exec := fun _ => .table tinyTable }

/-- An uppercase letter is not a dot. -/
theorem isDot_eq_false_of_isUpper : ∀ c : Char, c.isUpper = true → isDot c = false := by
  intro c h
  cases hb : (c == '.') with
  | false => simpa [isDot] using hb
  | true =>
    have hc : c = '.' := beq_iff_eq.mp hb
    subst hc
    exact absurd h (by decide)

/-- An uppercase letter is not lowercase. -/
theorem isLower_eq_false_of_isUpper : ∀ c : Char, c.isUpper = true → c.isLower = false := by
  intro c h
  simp only [Char.isUpper, Char.isLower] at *
  simp only [Bool.and_eq_true, decide_eq_true_eq] at h
  simp only [Bool.and_eq_false_iff, decide_eq_false_iff_not]
  left
  intro h3
  exact absurd (UInt32.le_trans h3 h.2) (by decide)

/-- A digit is not a letter. -/
theorem isAlpha_eq_false_of_isDigit : ∀ c : Char, c.isDigit = true → c.isAlpha = false := by
  intro c h
  simp only [Char.isDigit, Char.isAlpha, Char.isUpper, Char.isLower] at *
  simp only [Bool.and_eq_true, decide_eq_true_eq] at h
  simp only [Bool.or_eq_false_iff, Bool.and_eq_false_iff, decide_eq_false_iff_not]
  exact ⟨Or.inl fun h3 => absurd (UInt32.le_trans h3 h.2) (by decide),
         Or.inl fun h3 => absurd (UInt32.le_trans h3 h.2) (by decide)⟩

theorem hasPair_cons_cons (p q : Char → Bool) (a b : Char) (l : List Char) :
    hasPair p q (a :: b :: l) = (p a && q b || hasPair p q (b :: l)) := rfl

theorem hasPair_tail (p q : Char → Bool) (a : Char) (l : List Char)
    (h : hasPair p q (a :: l) = false) : hasPair p q l = false := by
  cases l with
  | nil => rfl
  | cons b t =>
    rw [hasPair_cons_cons, Bool.or_eq_false_iff] at h
    exact h.2

theorem hasPair_cons_of_not_left (p q : Char → Bool) (a : Char) (l : List Char)
    (h : p a = false) : hasPair p q (a :: l) = hasPair p q l := by
  cases l with
  | nil => rfl
  | cons b t => rw [hasPair_cons_cons, h, Bool.false_and, Bool.false_or]

theorem insertSpaceAt_short (p q : Char → Bool) (l : List Char)
    (h : ∀ (a b : Char) (rest : List Char), l = a :: b :: rest → False) :
    insertSpaceAt p q l = l := by
  cases l with
  | nil => rfl
  | cons a t =>
    cases t with
    | nil => rfl
    | cons b r => exact (h a b r rfl).elim

theorem hasPair_short (p q : Char → Bool) (l : List Char)
    (h : ∀ (a b : Char) (rest : List Char), l = a :: b :: rest → False) :
    hasPair p q l = false := by
  cases l with
  | nil => rfl
  | cons a t =>
    cases t with
    | nil => rfl
    | cons b r => exact (h a b r rfl).elim

theorem head?_insertSpaceAt (p q : Char → Bool) (l : List Char) :
    (insertSpaceAt p q l).head? = l.head? := by
  cases l with
  | nil => rfl
  | cons a t =>
    cases t with
    | nil => rfl
    | cons b rest =>
      rw [insertSpaceAt]
      split <;> rfl

/-- The substitution pass only inserts spaces: erasing spaces recovers the
input, so every non-space character is kept, in order. -/
theorem filter_insertSpaceAt (p q : Char → Bool) (l : List Char) :
    (insertSpaceAt p q l).filter (fun c => c != ' ') = l.filter (fun c => c != ' ') := by
  induction l using insertSpaceAt.induct p q with
  | case1 a b rest h ih => simp [insertSpaceAt, h, List.filter, ih]
  | case2 a b rest h ih => simp only [insertSpaceAt, h, if_false]; simp [List.filter, ih]
  | case3 l h => rw [insertSpaceAt_short p q l h]

/-- After the substitution pass, no adjacent pair matches the pattern any
longer (every match of the original got a space inserted). -/
theorem hasPair_insertSpaceAt_self (p q : Char → Bool) (hp : p ' ' = false)
    (hq : q ' ' = false) (hpq : ∀ c, q c = true → p c = false) (l : List Char) :
    hasPair p q (insertSpaceAt p q l) = false := by
  induction l using insertSpaceAt.induct p q with
  | case1 a b rest h ih =>
    rw [insertSpaceAt, if_pos h]
    rw [hasPair_cons_cons, hasPair_cons_cons]
    have hqb : q b = true := (Bool.and_eq_true _ _ |>.mp h).2
    rw [hq, hp, Bool.and_false, Bool.false_and, Bool.false_or, Bool.false_or]
    rw [hasPair_cons_of_not_left p q b _ (hpq b hqb)]
    exact ih
  | case2 a b rest h ih =>
    have hb' : (p a && q b) = false := by simpa using h
    rw [insertSpaceAt, if_neg (by simp [hb'])]
    cases hI : insertSpaceAt p q (b :: rest) with
    | nil => rfl
    | cons c tl =>
      have hc : c = b := by
        have hh := head?_insertSpaceAt p q (b :: rest)
        rw [hI] at hh
        simpa using hh
      subst hc
      rw [hasPair_cons_cons, ← hI, ih, Bool.or_false]
      exact hb'
  | case3 l h => rw [insertSpaceAt_short p q l h]; exact hasPair_short p q l h

/-- A substitution pass cannot create a match of another two-character pattern
whose classes both reject the space character. -/
theorem hasPair_insertSpaceAt_preserved (p q p' q' : Char → Bool)
    (hp' : p' ' ' = false) (hq' : q' ' ' = false) (l : List Char)
    (h : hasPair p' q' l = false) : hasPair p' q' (insertSpaceAt p q l) = false := by
  induction l using insertSpaceAt.induct p q with
  | case1 a b rest hb ih =>
    rw [insertSpaceAt, if_pos hb]
    rw [hasPair_cons_cons, Bool.or_eq_false_iff] at h
    rw [hasPair_cons_cons, hasPair_cons_cons, hq', hp', Bool.and_false, Bool.false_and,
      Bool.false_or, Bool.false_or]
    cases hI : insertSpaceAt p q rest with
    | nil => rfl
    | cons c tl =>
      cases rest with
      | nil => simp [insertSpaceAt] at hI
      | cons x xs =>
        have hcx : c = x := by
          have hh := head?_insertSpaceAt p q (x :: xs)
          rw [hI] at hh
          simpa using hh
        subst hcx
        have h2 := h.2
        rw [hasPair_cons_cons, Bool.or_eq_false_iff] at h2
        rw [hasPair_cons_cons, h2.1, Bool.false_or, ← hI]
        exact ih h2.2
  | case2 a b rest hb ih =>
    have hb' : (p a && q b) = false := by simpa using hb
    rw [insertSpaceAt, if_neg (by simp [hb'])]
    rw [hasPair_cons_cons, Bool.or_eq_false_iff] at h
    cases hI : insertSpaceAt p q (b :: rest) with
    | nil => rfl
    | cons c tl =>
      have hc : c = b := by
        have hh := head?_insertSpaceAt p q (b :: rest)
        rw [hI] at hh
        simpa using hh
      subst hc
      rw [hasPair_cons_cons, h.1, Bool.false_or, ← hI]
      exact ih h.2
  | case3 l hl => rwa [insertSpaceAt_short p q l hl]

/-- On input with no match, the substitution pass is the identity. -/
theorem insertSpaceAt_of_no_pair (p q : Char → Bool) (l : List Char)
    (h : hasPair p q l = false) : insertSpaceAt p q l = l := by
  induction l using insertSpaceAt.induct p q with
  | case1 a b rest hb ih =>
    rw [hasPair_cons_cons, hb, Bool.true_or] at h
    exact absurd h (by simp)
  | case2 a b rest hb ih =>
    have hb' : (p a && q b) = false := by simpa using hb
    rw [insertSpaceAt, if_neg (by simp [hb'])]
    rw [ih (hasPair_tail p q a _ h)]
  | case3 l hl => exact insertSpaceAt_short p q l hl

/-- `appendTurns` appends the listed turns in order and keeps the window. -/
theorem appendTurns_spec (ts : List (String × String)) :
    ∀ m : MemoryObj, (appendTurns m ts).turns = m.turns ++ ts ∧
      (appendTurns m ts).window = m.window := by
  induction ts with
  | nil => intro m; simp [appendTurns]
  | cons p ps ih =>
    intro m
    have hstep : appendTurns m (p :: ps) = appendTurns (saveContext m p.1 p.2) ps := rfl
    rw [hstep]
    obtain ⟨h1, h2⟩ := ih (saveContext m p.1 p.2)
    refine ⟨?_, h2⟩
    rw [h1]
    simp [saveContext]

theorem loopAux_zero (ω : Oracles) (question ctx hist : String) (attempt : Nat)
    (sql : String) (err : Option String) :
    loopAux ω question ctx hist 0 attempt sql err = ⟨sql, none, err, [], []⟩ := rfl

theorem loopAux_succ_table (ω : Oracles) (question ctx hist : String) (n attempt : Nat)
    (sql : String) (err : Option String) (t : Table) (hx : ω.exec sql = .table t) :
    loopAux ω question ctx hist (n + 1) attempt sql err = ⟨sql, some t, none, [sql], []⟩ := by
  rw [loopAux, hx]

theorem loopAux_succ_marker (ω : Oracles) (question ctx hist : String) (n attempt : Nat)
    (sql : String) (err : Option String) (e : String) (hx : ω.exec sql = .failure e)
    (hm : pyStartsWith (fix_sql_with_error ω (attempt + 1) question sql e ctx hist) "--ERROR" = true) :
    loopAux ω question ctx hist (n + 1) attempt sql err =
      ⟨sql, none, some e, [sql], [fix_sql_with_error ω (attempt + 1) question sql e ctx hist]⟩ := by
  rw [loopAux, hx]
  simp only [hm, if_true]

theorem loopAux_succ_rec (ω : Oracles) (question ctx hist : String) (n attempt : Nat)
    (sql : String) (err : Option String) (e : String) (hx : ω.exec sql = .failure e)
    (hm : pyStartsWith (fix_sql_with_error ω (attempt + 1) question sql e ctx hist) "--ERROR" = false) :
    loopAux ω question ctx hist (n + 1) attempt sql err =
      ⟨(loopAux ω question ctx hist n (attempt + 1)
          (fix_sql_with_error ω (attempt + 1) question sql e ctx hist) (some e)).sql,
        (loopAux ω question ctx hist n (attempt + 1)
          (fix_sql_with_error ω (attempt + 1) question sql e ctx hist) (some e)).df,
        (loopAux ω question ctx hist n (attempt + 1)
          (fix_sql_with_error ω (attempt + 1) question sql e ctx hist) (some e)).err,
        sql :: (loopAux ω question ctx hist n (attempt + 1)
          (fix_sql_with_error ω (attempt + 1) question sql e ctx hist) (some e)).executed,
        fix_sql_with_error ω (attempt + 1) question sql e ctx hist ::
          (loopAux ω question ctx hist n (attempt + 1)
            (fix_sql_with_error ω (attempt + 1) question sql e ctx hist) (some e)).fixOutputs⟩ := by
  rw [loopAux, hx]
  simp only [hm, Bool.false_eq_true, if_false]

/-- Trace invariants of the retry loop: at most `remaining` executions and at
most `remaining` repair calls are added; the executed statements are an
initial segment of the candidate sequence (current statement followed by the
repair outputs in order), so each candidate is executed at most once; and on
success every candidate was executed (no repair call follows the successful
execution) and the error slot is cleared. -/
theorem loopAux_trace (ω : Oracles) (question ctx hist : String) :
    ∀ (remaining attempt : Nat) (sql : String) (err : Option String),
      (loopAux ω question ctx hist remaining attempt sql err).executed.length ≤ remaining ∧
      (loopAux ω question ctx hist remaining attempt sql err).fixOutputs.length ≤ remaining ∧
      (∃ t, sql :: (loopAux ω question ctx hist remaining attempt sql err).fixOutputs =
          (loopAux ω question ctx hist remaining attempt sql err).executed ++ t) ∧
      ((loopAux ω question ctx hist remaining attempt sql err).df.isSome = true →
        sql :: (loopAux ω question ctx hist remaining attempt sql err).fixOutputs =
          (loopAux ω question ctx hist remaining attempt sql err).executed ∧
        (loopAux ω question ctx hist remaining attempt sql err).err = none) := by
  intro remaining
  induction remaining with
  | zero =>
    intro attempt sql err
    rw [loopAux_zero]
    exact ⟨by simp, by simp, ⟨[sql], by simp⟩, by simp⟩
  | succ n ih =>
    intro attempt sql err
    cases hx : ω.exec sql with
    | table t =>
      rw [loopAux_succ_table ω question ctx hist n attempt sql err t hx]
      exact ⟨by simp, by simp, ⟨[], by simp⟩, fun _ => ⟨rfl, rfl⟩⟩
    | failure e =>
      cases hm : pyStartsWith (fix_sql_with_error ω (attempt + 1) question sql e ctx hist) "--ERROR" with
      | true =>
        rw [loopAux_succ_marker ω question ctx hist n attempt sql err e hx hm]
        exact ⟨by simp, by simp, ⟨[fix_sql_with_error ω (attempt + 1) question sql e ctx hist], by simp⟩, by simp⟩
      | false =>
        rw [loopAux_succ_rec ω question ctx hist n attempt sql err e hx hm]
        obtain ⟨h1, h2, ⟨t0, ht0⟩, h4⟩ :=
          ih (attempt + 1) (fix_sql_with_error ω (attempt + 1) question sql e ctx hist) (some e)
        refine ⟨by simpa using Nat.succ_le_succ h1, by simpa using Nat.succ_le_succ h2, ⟨t0, ?_⟩, ?_⟩
        · simp only [List.cons_append]
          rw [← ht0]
        · intro hsome
          obtain ⟨ha, hb⟩ := h4 (by simpa using hsome)
          refine ⟨?_, by simpa using hb⟩
          simp only
          rw [ha]

/-- Every statement the loop executes passed the marker test: no `--ERROR`
marker string is ever executed. -/
theorem loopAux_executed_not_marker (ω : Oracles) (question ctx hist : String) :
    ∀ (remaining attempt : Nat) (sql : String) (err : Option String),
      pyStartsWith sql "--ERROR" = false →
      ∀ s ∈ (loopAux ω question ctx hist remaining attempt sql err).executed,
        pyStartsWith s "--ERROR" = false := by
  intro remaining
  induction remaining with
  | zero =>
    intro attempt sql err hs s hmem
    rw [loopAux_zero] at hmem
    simp at hmem
  | succ n ih =>
    intro attempt sql err hs s hmem
    cases hx : ω.exec sql with
    | table t =>
      rw [loopAux_succ_table ω question ctx hist n attempt sql err t hx] at hmem
      simp at hmem
      subst hmem
      exact hs
    | failure e =>
      cases hm : pyStartsWith (fix_sql_with_error ω (attempt + 1) question sql e ctx hist) "--ERROR" with
      | true =>
        rw [loopAux_succ_marker ω question ctx hist n attempt sql err e hx hm] at hmem
        simp at hmem
        subst hmem
        exact hs
      | false =>
        rw [loopAux_succ_rec ω question ctx hist n attempt sql err e hx hm] at hmem
        simp only [List.mem_cons] at hmem
        cases hmem with
        | inl h => subst h; exact hs
        | inr h =>
          exact ih (attempt + 1) (fix_sql_with_error ω (attempt + 1) question sql e ctx hist)
            (some e) hm s h

/-- When the loop's last repair output carries the marker (the repair-mode
generation call failed), the loop stopped at once: no rows, the error slot
holds the error of the final execution — which is the execution of the loop's
final statement, the last executed one — the repair-call count equals the
execution count (so nothing ran after the failed repair call), and the marker
string itself was never executed. -/
theorem loopAux_marker_stop (ω : Oracles) (question ctx hist : String) :
    ∀ (remaining attempt : Nat) (sql : String) (err : Option String),
      pyStartsWith sql "--ERROR" = false →
      ∀ (fx : List String) (m : String),
        (loopAux ω question ctx hist remaining attempt sql err).fixOutputs = fx ++ [m] →
        pyStartsWith m "--ERROR" = true →
        (loopAux ω question ctx hist remaining attempt sql err).df = none ∧
        (∃ e, (loopAux ω question ctx hist remaining attempt sql err).err = some e ∧
          ω.exec (loopAux ω question ctx hist remaining attempt sql err).sql = .failure e) ∧
        (loopAux ω question ctx hist remaining attempt sql err).executed.length =
          (loopAux ω question ctx hist remaining attempt sql err).fixOutputs.length ∧
        m ∉ (loopAux ω question ctx hist remaining attempt sql err).executed ∧
        (∃ pre, (loopAux ω question ctx hist remaining attempt sql err).executed =
          pre ++ [(loopAux ω question ctx hist remaining attempt sql err).sql]) := by
  intro remaining
  induction remaining with
  | zero =>
    intro attempt sql err hs fx m hfix hmark
    rw [loopAux_zero] at hfix
    simp at hfix
  | succ n ih =>
    intro attempt sql err hs fx m hfix hmark
    cases hx : ω.exec sql with
    | table t =>
      rw [loopAux_succ_table ω question ctx hist n attempt sql err t hx] at hfix ⊢
      simp at hfix
    | failure e =>
      cases hm : pyStartsWith (fix_sql_with_error ω (attempt + 1) question sql e ctx hist) "--ERROR" with
      | true =>
        rw [loopAux_succ_marker ω question ctx hist n attempt sql err e hx hm] at hfix ⊢
        have hmv : m = fix_sql_with_error ω (attempt + 1) question sql e ctx hist := by
          cases fx with
          | nil => simpa using hfix.symm
          | cons f fs =>
            simp only at hfix
            have := congrArg List.length hfix
            simp at this
        refine ⟨rfl, ⟨e, rfl, hx⟩, rfl, ?_, ⟨[], rfl⟩⟩
        simp only [List.mem_singleton]
        intro hms
        subst hms
        rw [hmark] at hs
        exact absurd hs (by simp)
      | false =>
        rw [loopAux_succ_rec ω question ctx hist n attempt sql err e hx hm] at hfix ⊢
        simp only at hfix ⊢
        cases fx with
        | nil =>
          simp only [List.nil_append] at hfix
          have h1 : fix_sql_with_error ω (attempt + 1) question sql e ctx hist = m :=
            (List.cons_eq_cons.mp hfix).1
          rw [h1, hmark] at hm
          exact absurd hm (by simp)
        | cons f fs =>
          simp only [List.cons_append, List.cons_eq_cons] at hfix
          obtain ⟨hf, hfs⟩ := hfix
          obtain ⟨ha, ⟨e2, hb, hc⟩, hd, he, ⟨pre, hpre⟩⟩ :=
            ih (attempt + 1) (fix_sql_with_error ω (attempt + 1) question sql e ctx hist)
              (some e) hm fs m hfs hmark
          refine ⟨ha, ⟨e2, hb, hc⟩, by simp [hd], ?_, ⟨sql :: pre, by simp [hpre]⟩⟩
          simp only [List.mem_cons, not_or]
          refine ⟨?_, he⟩
          intro hms
          subst hms
          rw [hmark] at hs
          exact absurd hs (by simp)

/-- Every repair output except possibly the last one passed the marker test:
the loop never continues past a failed repair-mode generation call. -/
theorem loopAux_fix_dropLast_not_marker (ω : Oracles) (question ctx hist : String) :
    ∀ (remaining attempt : Nat) (sql : String) (err : Option String),
      ∀ s ∈ (loopAux ω question ctx hist remaining attempt sql err).fixOutputs.dropLast,
        pyStartsWith s "--ERROR" = false := by
  intro remaining
  induction remaining with
  | zero =>
    intro attempt sql err s hmem
    rw [loopAux_zero] at hmem
    simp at hmem
  | succ n ih =>
    intro attempt sql err s hmem
    cases hx : ω.exec sql with
    | table t =>
      rw [loopAux_succ_table ω question ctx hist n attempt sql err t hx] at hmem
      simp at hmem
    | failure e =>
      cases hm : pyStartsWith (fix_sql_with_error ω (attempt + 1) question sql e ctx hist) "--ERROR" with
      | true =>
        rw [loopAux_succ_marker ω question ctx hist n attempt sql err e hx hm] at hmem
        simp at hmem
      | false =>
        rw [loopAux_succ_rec ω question ctx hist n attempt sql err e hx hm] at hmem
        simp only at hmem
        cases hout : (loopAux ω question ctx hist n (attempt + 1)
            (fix_sql_with_error ω (attempt + 1) question sql e ctx hist) (some e)).fixOutputs with
        | nil => rw [hout] at hmem; simp at hmem
        | cons x xs =>
          rw [hout] at hmem
          rw [List.dropLast_cons₂] at hmem
          cases List.mem_cons.mp hmem with
          | inl h => subst h; exact hm
          | inr h =>
            have := ih (attempt + 1) (fix_sql_with_error ω (attempt + 1) question sql e ctx hist)
              (some e) s
            rw [hout] at this
            exact this h

/-- `app.process_query` when the initial generation returned the marker: the
loop is skipped and the marker is handed to the Summarizer as the error. -/
theorem appTurn_of_marker (ω : Oracles) (question ctx : String) (mem : MemoryObj)
    (hg : pyStartsWith (genOf ω question ctx mem) "--ERROR" = true) :
    appTurn ω question ctx mem =
      { answer := cleanResponse (summarize_result ω question (genOf ω question ctx mem) none
          (some (genOf ω question ctx mem)) ctx mem).1
        rawAnswer := (summarize_result ω question (genOf ω question ctx mem) none
          (some (genOf ω question ctx mem)) ctx mem).1
        sqlForSummary := genOf ω question ctx mem
        dfForSummary := none
        errForSummary := some (genOf ω question ctx mem)
        executed := []
        fixOutputs := []
        memAfter := (summarize_result ω question (genOf ω question ctx mem) none
          (some (genOf ω question ctx mem)) ctx mem).2 } := by
  have hg' := hg
  unfold genOf at hg'
  simp only [appTurn, genOf, hg', if_true]

/-- `app.process_query` when the initial generation produced a statement: the
retry loop runs and its outcome is handed to the Summarizer. -/
theorem appTurn_of_ok (ω : Oracles) (question ctx : String) (mem : MemoryObj)
    (hg : pyStartsWith (genOf ω question ctx mem) "--ERROR" = false) :
    appTurn ω question ctx mem =
      { answer := cleanResponse (summarize_result ω question (loopOf ω question ctx mem).sql
          (loopOf ω question ctx mem).df (loopOf ω question ctx mem).err ctx mem).1
        rawAnswer := (summarize_result ω question (loopOf ω question ctx mem).sql
          (loopOf ω question ctx mem).df (loopOf ω question ctx mem).err ctx mem).1
        sqlForSummary := (loopOf ω question ctx mem).sql
        dfForSummary := (loopOf ω question ctx mem).df
        errForSummary := (loopOf ω question ctx mem).err
        executed := (loopOf ω question ctx mem).executed
        fixOutputs := (loopOf ω question ctx mem).fixOutputs
        memAfter := (summarize_result ω question (loopOf ω question ctx mem).sql
          (loopOf ω question ctx mem).df (loopOf ω question ctx mem).err ctx mem).2 } := by
  have hg' := hg
  unfold genOf at hg'
  simp only [appTurn, loopOf, genOf, hg', Bool.false_eq_true, if_false]

/-- `main.main`'s turn when the initial generation returned the marker: the
marker is printed as the answer and nothing else happens — no execution, no
repair, no Summarizer call, no memory write. -/
theorem consoleTurn_of_marker (ω : Oracles) (question ctx : String) (mem : MemoryObj)
    (hg : pyStartsWith (genOf ω question ctx mem) "--ERROR" = true) :
    consoleTurn ω question ctx mem =
      { answer := genOf ω question ctx mem
        rawAnswer := genOf ω question ctx mem
        sqlForSummary := genOf ω question ctx mem
        dfForSummary := none
        errForSummary := none
        executed := []
        fixOutputs := []
        memAfter := mem } := by
  have hg' := hg
  unfold genOf at hg'
  simp only [consoleTurn, genOf, hg', if_true]

/-- `main.main`'s turn when the initial generation produced a statement. -/
theorem consoleTurn_of_ok (ω : Oracles) (question ctx : String) (mem : MemoryObj)
    (hg : pyStartsWith (genOf ω question ctx mem) "--ERROR" = false) :
    consoleTurn ω question ctx mem =
      { answer := (summarize_result ω question (loopOf ω question ctx mem).sql
          (loopOf ω question ctx mem).df (loopOf ω question ctx mem).err ctx mem).1
        rawAnswer := (summarize_result ω question (loopOf ω question ctx mem).sql
          (loopOf ω question ctx mem).df (loopOf ω question ctx mem).err ctx mem).1
        sqlForSummary := (loopOf ω question ctx mem).sql
        dfForSummary := (loopOf ω question ctx mem).df
        errForSummary := (loopOf ω question ctx mem).err
        executed := (loopOf ω question ctx mem).executed
        fixOutputs := (loopOf ω question ctx mem).fixOutputs
        memAfter := (summarize_result ω question (loopOf ω question ctx mem).sql
          (loopOf ω question ctx mem).df (loopOf ω question ctx mem).err ctx mem).2 } := by
  have hg' := hg
  unfold genOf at hg'
  simp only [consoleTurn, loopOf, genOf, hg', Bool.false_eq_true, if_false]

/-- The Summarizer's memory write: the saved pair is the question together
with the very summary it returns. -/
theorem summarize_result_snd (ω : Oracles) (question sqlQuery : String) (df : Option Table)
    (error_msg : Option String) (ctx : String) (mem : MemoryObj) :
    (summarize_result ω question sqlQuery df error_msg ctx mem).2 =
      saveContext mem question (summarize_result ω question sqlQuery df error_msg ctx mem).1 := rfl

theorem loopOf_run (ω : Oracles) (question ctx : String) (mem : MemoryObj) :
    loopOf ω question ctx mem =
      loopAux ω question ctx (renderHistory mem) MAX_RETRIES 0 (genOf ω question ctx mem) none := rfl

theorem loadHistory_window (m : MemoryObj) (k : Nat) (h : m.window = some k) :
    loadHistory m = m.turns.drop (m.turns.length - k) := by
  unfold loadHistory
  rw [h]

/-- A string starting with a prefix still starts with it after appending. -/
theorem pyStartsWith_append_right (s pre r : String) (h : pyStartsWith s pre = true) :
    pyStartsWith (s ++ r) pre = true := by
  unfold pyStartsWith at *
  rw [ List.isPrefixOf_iff_prefix] at *
  have : s.data <+: (s ++ r).data := by
    rw [String.data_append]
    exact List.prefix_append s.data r.data
  exact h.trans this

/-- The retry loop's trace when all `MAX_RETRIES` executions fail and every
repair call yields a usable (non-marker) statement: three executions of the
three first candidates, three repair outputs, final statement the fourth
candidate (never executed), error slot the third execution's error. -/
theorem runLoop_exhaust (ω : Oracles) (question ctx hist : String)
    (c0 c1 c2 c3 e0 e1 e2 : String)
    (hx0 : ω.exec c0 = .failure e0)
    (hf1 : fix_sql_with_error ω 1 question c0 e0 ctx hist = c1)
    (hm1 : pyStartsWith c1 "--ERROR" = false)
    (hx1 : ω.exec c1 = .failure e1)
    (hf2 : fix_sql_with_error ω 2 question c1 e1 ctx hist = c2)
    (hm2 : pyStartsWith c2 "--ERROR" = false)
    (hx2 : ω.exec c2 = .failure e2)
    (hf3 : fix_sql_with_error ω 3 question c2 e2 ctx hist = c3)
    (hm3 : pyStartsWith c3 "--ERROR" = false) :
    runLoop ω question ctx hist c0 = ⟨c3, none, some e2, [c0, c1, c2], [c1, c2, c3]⟩ := by
  have h1 : loopAux ω question ctx hist 1 2 c2 (some e1) = ⟨c3, none, some e2, [c2], [c3]⟩ := by
    rw [show (1 : Nat) = 0 + 1 from rfl,
      loopAux_succ_rec ω question ctx hist 0 2 c2 (some e1) e2 hx2
        (by rw [show fix_sql_with_error ω (2 + 1) question c2 e2 ctx hist = c3 from hf3]; exact hm3)]
    rw [show fix_sql_with_error ω (2 + 1) question c2 e2 ctx hist = c3 from hf3]
    rw [loopAux_zero]
  have h2 : loopAux ω question ctx hist 2 1 c1 (some e0) = ⟨c3, none, some e2, [c1, c2], [c2, c3]⟩ := by
    rw [show (2 : Nat) = 1 + 1 from rfl,
      loopAux_succ_rec ω question ctx hist 1 1 c1 (some e0) e1 hx1
        (by rw [show fix_sql_with_error ω (1 + 1) question c1 e1 ctx hist = c2 from hf2]; exact hm2)]
    rw [show fix_sql_with_error ω (1 + 1) question c1 e1 ctx hist = c2 from hf2]
    rw [show (1 : Nat) + 1 = 2 from rfl, h1]
  have h3 : loopAux ω question ctx hist 3 0 c0 none = ⟨c3, none, some e2, [c0, c1, c2], [c1, c2, c3]⟩ := by
    rw [show (3 : Nat) = 2 + 1 from rfl,
      loopAux_succ_rec ω question ctx hist 2 0 c0 none e0 hx0
        (by rw [show fix_sql_with_error ω (0 + 1) question c0 e0 ctx hist = c1 from hf1]; exact hm1)]
    rw [show fix_sql_with_error ω (0 + 1) question c0 e0 ctx hist = c1 from hf1]
    rw [show (0 : Nat) + 1 = 1 from rfl, h2]
  unfold runLoop MAX_RETRIES
  exact h3

/-- C1, amended.  The claim holds for the initial generation: a marker result
ends the turn at once with no execution and no repair, and the terminal
outcome carries that GenerationError.  For a repair-mode generation failure
the loop does stop at once — the marker is the last repair output, nothing
executes after it (execution count equals repair-call count, and the marker
string itself is never executed), and no further repair happens — but the
terminal outcome carries the last ExecutionError (the error of the final,
failing execution of the loop's final statement), not the GenerationError:
the marker string is discarded. -/
theorem c1_amended (ω : Oracles) (question ctx : String) (mem : MemoryObj) :
    (pyStartsWith (genOf ω question ctx mem) "--ERROR" = true →
      (appTurn ω question ctx mem).executed = [] ∧
      (appTurn ω question ctx mem).fixOutputs = [] ∧
      (appTurn ω question ctx mem).errForSummary = some (genOf ω question ctx mem) ∧
      (appTurn ω question ctx mem).dfForSummary = none) ∧
    (pyStartsWith (genOf ω question ctx mem) "--ERROR" = false →
      ∀ (fx : List String) (m : String),
        (appTurn ω question ctx mem).fixOutputs = fx ++ [m] →
        pyStartsWith m "--ERROR" = true →
        (appTurn ω question ctx mem).dfForSummary = none ∧
        (∃ e, (appTurn ω question ctx mem).errForSummary = some e ∧
          ω.exec (appTurn ω question ctx mem).sqlForSummary = .failure e) ∧
        (appTurn ω question ctx mem).executed.length =
          (appTurn ω question ctx mem).fixOutputs.length ∧
        m ∉ (appTurn ω question ctx mem).executed ∧
        (∃ pre, (appTurn ω question ctx mem).executed =
          pre ++ [(appTurn ω question ctx mem).sqlForSummary])) ∧
    (∀ s ∈ (appTurn ω question ctx mem).fixOutputs.dropLast,
      pyStartsWith s "--ERROR" = false) := by
  cases hg : pyStartsWith (genOf ω question ctx mem) "--ERROR" with
  | true =>
    rw [appTurn_of_marker ω question ctx mem hg]
    refine ⟨fun _ => ⟨rfl, rfl, rfl, rfl⟩, ?_, ?_⟩
    · intro h
      simp at h
    · intro s hs
      simp at hs
  | false =>
    rw [appTurn_of_ok ω question ctx mem hg]
    refine ⟨fun h => by simp at h, ?_, ?_⟩
    · intro _ fx m hfix hmark
      rw [loopOf_run] at hfix ⊢
      exact loopAux_marker_stop ω question ctx (renderHistory mem) MAX_RETRIES 0
        (genOf ω question ctx mem) none hg fx m hfix hmark
    · intro s hs
      rw [loopOf_run] at hs
      exact loopAux_fix_dropLast_not_marker ω question ctx (renderHistory mem) MAX_RETRIES 0
        (genOf ω question ctx mem) none s hs

/-- C1 counterexample: with a first execution failing with `execboom` and the
repair-mode generation call raising `genboom`, the turn's terminal outcome
carries the ExecutionError `execboom` — not the GenerationError marker, which
is discarded — refuting that the terminal state carries that GenerationError. -/
theorem c1_counterexample :
    (appTurn oracleRepairGenFail "q" "c" emptyBufferMem).errForSummary = some "execboom" ∧
    (appTurn oracleRepairGenFail "q" "c" emptyBufferMem).fixOutputs =
      ["--ERROR IN fix_sql_with_error: genboom"] ∧
    (appTurn oracleRepairGenFail "q" "c" emptyBufferMem).errForSummary ≠
      some "--ERROR IN fix_sql_with_error: genboom" ∧
    pyStartsWith "execboom" "--ERROR" = false :=
  ⟨by decide, by decide, by decide, by decide⟩

/-- C1 witness: the amended statement at two concrete service behaviors (one
failing the initial generation, one failing the repair-mode generation). -/
theorem c1_witness :
    (appTurn oracleGenFail "q" "c" emptyBufferMem).errForSummary =
      some (genOf oracleGenFail "q" "c" emptyBufferMem) ∧
    (appTurn oracleRepairGenFail "q" "c" emptyBufferMem).dfForSummary = none :=
  ⟨((c1_amended oracleGenFail "q" "c" emptyBufferMem).1 (by decide)).2.2.1,
   ((c1_amended oracleRepairGenFail "q" "c" emptyBufferMem).2.1 (by decide) []
      "--ERROR IN fix_sql_with_error: genboom" (by decide) (by decide)).1⟩

/-- C2, amended.  Per turn there are at most `MAX_RETRIES` executions (hence
at most `MAX_RETRIES + 1` as claimed) and at most `MAX_RETRIES + 1` generation
calls (the initial one plus the repair calls); the executed statements are an
initial segment of the candidate sequence, so the i-th execution runs the i-th
candidate and each candidate is executed at most once; and after a successful
execution no repair is ever invoked (every repair output precedes an
execution).  What fails in the claim is only textual distinctness: the loop
never compares candidate texts, so the same statement text is executed again
whenever a repair call returns a previously executed statement verbatim. -/
theorem c2_amended (ω : Oracles) (question ctx : String) (mem : MemoryObj) :
    (appTurn ω question ctx mem).executed.length ≤ MAX_RETRIES ∧
    1 + (appTurn ω question ctx mem).fixOutputs.length ≤ MAX_RETRIES + 1 ∧
    (∃ t, genOf ω question ctx mem :: (appTurn ω question ctx mem).fixOutputs =
        (appTurn ω question ctx mem).executed ++ t) ∧
    ((appTurn ω question ctx mem).dfForSummary.isSome = true →
      genOf ω question ctx mem :: (appTurn ω question ctx mem).fixOutputs =
        (appTurn ω question ctx mem).executed ∧
      (appTurn ω question ctx mem).errForSummary = none) := by
  cases hg : pyStartsWith (genOf ω question ctx mem) "--ERROR" with
  | true =>
    rw [appTurn_of_marker ω question ctx mem hg]
    exact ⟨by simp, by simp [MAX_RETRIES], ⟨[genOf ω question ctx mem], by simp⟩, by simp⟩
  | false =>
    rw [appTurn_of_ok ω question ctx mem hg]
    obtain ⟨h1, h2, h3, h4⟩ := loopAux_trace ω question ctx (renderHistory mem) MAX_RETRIES 0
      (genOf ω question ctx mem) none
    rw [loopOf_run]
    exact ⟨h1, by rw [Nat.add_comm 1]; exact Nat.succ_le_succ h2, h3, h4⟩

/-- C2 counterexample: when every repair call returns the failing statement
`S` verbatim, the loop executes the same candidate statement three times,
refuting "never executes the same candidate statement twice". -/
theorem c2_counterexample :
    (appTurn oracleConstFix "q" "c" emptyBufferMem).executed = ["S", "S", "S"] ∧
    ¬ (appTurn oracleConstFix "q" "c" emptyBufferMem).executed.Nodup :=
  ⟨by decide, by decide⟩

/-- C2 witness: the amended statement at a service whose first statement
executes successfully. -/
theorem c2_witness :
    (appTurn oracleSuccess "q" "c" emptyBufferMem).dfForSummary.isSome = true ∧
    genOf oracleSuccess "q" "c" emptyBufferMem ::
        (appTurn oracleSuccess "q" "c" emptyBufferMem).fixOutputs =
      (appTurn oracleSuccess "q" "c" emptyBufferMem).executed ∧
    (appTurn oracleSuccess "q" "c" emptyBufferMem).errForSummary = none :=
  ⟨by decide,
   ((c2_amended oracleSuccess "q" "c" emptyBufferMem).2.2.2 (by decide)).1,
   ((c2_amended oracleSuccess "q" "c" emptyBufferMem).2.2.2 (by decide)).2⟩

/-- C3, amended.  In the UI variant (`app.process_query`) every turn appends
the (question, pre-normalization answer) pair to memory, whatever the
outcome.  The console variant (`main.main`) appends the pair whenever the
initial generation produced a statement — including execution-error and
repair-failure outcomes — but on an initial generation failure it prints the
marker and ends the turn without invoking the Summarizer, so nothing is
appended to memory for that turn. -/
theorem c3_amended (ω : Oracles) (question ctx : String) (mem : MemoryObj) :
    (appTurn ω question ctx mem).memAfter =
      saveContext mem question (appTurn ω question ctx mem).rawAnswer ∧
    (pyStartsWith (genOf ω question ctx mem) "--ERROR" = false →
      (consoleTurn ω question ctx mem).memAfter =
        saveContext mem question (consoleTurn ω question ctx mem).rawAnswer) ∧
    (pyStartsWith (genOf ω question ctx mem) "--ERROR" = true →
      (consoleTurn ω question ctx mem).memAfter = mem) := by
  refine ⟨?_, ?_, ?_⟩
  · cases hg : pyStartsWith (genOf ω question ctx mem) "--ERROR" with
    | true => rw [appTurn_of_marker ω question ctx mem hg]; exact summarize_result_snd ω question _ _ _ _ _
    | false => rw [appTurn_of_ok ω question ctx mem hg]; exact summarize_result_snd ω question _ _ _ _ _
  · intro hg
    rw [consoleTurn_of_ok ω question ctx mem hg]
    exact summarize_result_snd ω question _ _ _ _ _
  · intro hg
    rw [consoleTurn_of_marker ω question ctx mem hg]

/-- C3 counterexample: a console turn whose initial generation fails completes
(with the marker as its answer) while the memory is left untouched — no
(question, answer) pair is appended, refuting "appended for every turn,
including generation errors". -/
theorem c3_counterexample :
    (consoleTurn oracleGenFail "q" "c" emptyWindowMem).answer =
      "--ERROR IN nl_to_sql: boom" ∧
    (consoleTurn oracleGenFail "q" "c" emptyWindowMem).memAfter.turns = [] :=
  ⟨by decide, by decide⟩

/-- C3 witness: the amended statement at concrete service behaviors. -/
theorem c3_witness :
    (consoleTurn oracleSuccess "q" "c" emptyWindowMem).memAfter =
      saveContext emptyWindowMem "q" (consoleTurn oracleSuccess "q" "c" emptyWindowMem).rawAnswer ∧
    (consoleTurn oracleGenFail "q" "c" emptyWindowMem).memAfter = emptyWindowMem :=
  ⟨(c3_amended oracleSuccess "q" "c" emptyWindowMem).2.1 (by decide),
   (c3_amended oracleGenFail "q" "c" emptyWindowMem).2.2 (by decide)⟩

/-- C4, amended.  The code does not enforce the canonical sentences: on a
failing turn the user-visible text is whatever the Summarizer model returns
(the canonical fallback sentences are instructed in the prompt, not checked),
and raw service-error strings do reach the caller: a console turn whose
initial generation call raises returns the raw `--ERROR IN nl_to_sql:` marker
carrying the exception text directly, and a raised summarizer call makes the
returned answer the raw `--ERROR IN summarize_result:` marker in both
variants. -/
theorem c4_amended (ω : Oracles) (question ctx : String) (mem : MemoryObj) (e : String) :
    (ω.genRaw (sqlMessages (renderHistory mem) ctx question) = .error e →
      (consoleTurn ω question ctx mem).answer = "--ERROR IN nl_to_sql: " ++ e) ∧
    (∀ (sqlQ : String) (df : Option Table) (err : Option String),
      ω.summaryRaw (summaryMessages (renderHistory mem) question sqlQ
          (result_content df err) ctx) = .error e →
      (summarize_result ω question sqlQ df err ctx mem).1 =
        "--ERROR IN summarize_result: " ++ e) := by
  constructor
  · intro hge
    have hgen : genOf ω question ctx mem = "--ERROR IN nl_to_sql: " ++ e := by
      unfold genOf nl_to_sql
      rw [hge]
    have hg : pyStartsWith (genOf ω question ctx mem) "--ERROR" = true := by
      rw [hgen]
      exact pyStartsWith_append_right "--ERROR IN nl_to_sql: " "--ERROR" e (by decide)
    rw [consoleTurn_of_marker ω question ctx mem hg]
    exact hgen
  · intro sqlQ df err hse
    unfold summarize_result
    simp only [hse]

/-- C4 counterexample: the raw service-error string `--ERROR IN nl_to_sql:
boom` is returned to the caller verbatim on a console turn — it is neither of
the two canonical fallback sentences and not a natural-language sentence
produced by the Summarizer. -/
theorem c4_counterexample :
    (consoleTurn oracleGenFail "q" "c" emptyWindowMem).answer =
      "--ERROR IN nl_to_sql: boom" ∧
    (consoleTurn oracleGenFail "q" "c" emptyWindowMem).answer ≠ CANON_ZERO ∧
    (consoleTurn oracleGenFail "q" "c" emptyWindowMem).answer ≠ CANON_NO_ANSWER :=
  ⟨by decide, by decide, by decide⟩

/-- C4 witness: the amended statement at concrete service behaviors (a raised
initial generation and a raised summarizer call). -/
theorem c4_witness :
    (consoleTurn oracleGenFail "q" "c" emptyWindowMem).answer =
      "--ERROR IN nl_to_sql: " ++ "boom" ∧
    (summarize_result oracleSummaryFail "q" "S" (some tinyTable) none "c" emptyWindowMem).1 =
      "--ERROR IN summarize_result: " ++ "sboom" :=
  ⟨(c4_amended oracleGenFail "q" "c" emptyWindowMem "boom").1 rfl,
   (c4_amended oracleSummaryFail "q" "c" emptyWindowMem "sboom").2 "S" (some tinyTable) none rfl⟩

/-- C10, amended.  When all `MAX_RETRIES` executions fail and every
repair-mode generation call succeeds (returns a usable statement), the SQL
recorded for the turn and passed to the Summarizer is the final repair
output — the fourth candidate, produced only after the final failed
execution, with no execution occurring after it — while the accompanying
error message is the one raised by the final (third) execution, which ran the
preceding candidate.  The claim's "different statement" holds only per
generation attempt: nothing prevents the final repair output from being
textually identical to an executed statement. -/
theorem c10_amended (ω : Oracles) (question ctx : String) (mem : MemoryObj)
    (c0 c1 c2 c3 e0 e1 e2 : String)
    (hgen : genOf ω question ctx mem = c0)
    (hg : pyStartsWith c0 "--ERROR" = false)
    (hx0 : ω.exec c0 = .failure e0)
    (hf1 : fix_sql_with_error ω 1 question c0 e0 ctx (renderHistory mem) = c1)
    (hm1 : pyStartsWith c1 "--ERROR" = false)
    (hx1 : ω.exec c1 = .failure e1)
    (hf2 : fix_sql_with_error ω 2 question c1 e1 ctx (renderHistory mem) = c2)
    (hm2 : pyStartsWith c2 "--ERROR" = false)
    (hx2 : ω.exec c2 = .failure e2)
    (hf3 : fix_sql_with_error ω 3 question c2 e2 ctx (renderHistory mem) = c3)
    (hm3 : pyStartsWith c3 "--ERROR" = false) :
    (appTurn ω question ctx mem).sqlForSummary = c3 ∧
    (appTurn ω question ctx mem).errForSummary = some e2 ∧
    (appTurn ω question ctx mem).dfForSummary = none ∧
    (appTurn ω question ctx mem).executed = [c0, c1, c2] ∧
    (appTurn ω question ctx mem).fixOutputs = [c1, c2, c3] := by
  have hl : loopOf ω question ctx mem = ⟨c3, none, some e2, [c0, c1, c2], [c1, c2, c3]⟩ := by
    unfold loopOf
    rw [hgen]
    exact runLoop_exhaust ω question ctx (renderHistory mem) c0 c1 c2 c3 e0 e1 e2
      hx0 hf1 hm1 hx1 hf2 hm2 hx2 hf3 hm3
  rw [appTurn_of_ok ω question ctx mem (by rw [hgen]; exact hg)]
  rw [hl]
  exact ⟨rfl, rfl, rfl, rfl, rfl⟩

/-- C10 counterexample: with every repair call returning the failing statement
`S` verbatim, all of C10's hypotheses hold, yet the SQL recorded for the turn
equals a statement that was executed (three times), refuting "itself never
executed" and "different statement" at the level of statement texts. -/
theorem c10_counterexample :
    (appTurn oracleConstFix "q" "c" emptyBufferMem).sqlForSummary = "S" ∧
    (appTurn oracleConstFix "q" "c" emptyBufferMem).sqlForSummary ∈
      (appTurn oracleConstFix "q" "c" emptyBufferMem).executed ∧
    (appTurn oracleConstFix "q" "c" emptyBufferMem).errForSummary = some "e" ∧
    oracleConstFix.exec "S" = .failure "e" :=
  ⟨by decide, by decide, by decide, by decide⟩

/-- C10 witness: the amended statement at a concrete service behavior with
three distinct failing candidates and a fresh final repair output. -/
theorem c10_witness :
    (appTurn oracleExhaust "q" "c" emptyBufferMem).sqlForSummary = "D" ∧
    (appTurn oracleExhaust "q" "c" emptyBufferMem).errForSummary = some "eC" ∧
    (appTurn oracleExhaust "q" "c" emptyBufferMem).executed = ["A", "B", "C"] ∧
    (appTurn oracleExhaust "q" "c" emptyBufferMem).fixOutputs = ["B", "C", "D"] := by
  obtain ⟨h1, h2, _, h4, h5⟩ :=
    c10_amended oracleExhaust "q" "c" emptyBufferMem "A" "B" "C" "D" "eA" "eB" "eC"
      (by decide) (by decide) (by decide) (by decide) (by decide) (by decide)
      (by decide) (by decide) (by decide) (by decide) (by decide)
  exact ⟨h1, h2, h4, h5⟩

/-- C9, amended.  The UI variant applies the clean-up to every turn's answer
before returning it, and the clean-up is exactly the claimed normalization:
it only inserts spaces (erasing all spaces recovers the erased input, so
every other character survives in order), after it no period is directly
followed by an uppercase letter, no lowercase letter by an uppercase one and
no letter by a digit, and it is the identity on text with no such seam.  The
console variant, however, returns the summary without any normalization, so
the normalization is not applied on every turn. -/
theorem c9_amended (ω : Oracles) (question ctx : String) (mem : MemoryObj) (s : String) :
    (appTurn ω question ctx mem).answer =
      cleanResponse (appTurn ω question ctx mem).rawAnswer ∧
    (consoleTurn ω question ctx mem).answer = (consoleTurn ω question ctx mem).rawAnswer ∧
    dropSpaces (cleanResponse s) = dropSpaces s ∧
    hasPair isDot Char.isUpper (cleanResponse s).data = false ∧
    hasPair Char.isLower Char.isUpper (cleanResponse s).data = false ∧
    hasPair Char.isAlpha Char.isDigit (cleanResponse s).data = false ∧
    (hasPair isDot Char.isUpper s.data = false →
      hasPair Char.isLower Char.isUpper s.data = false →
      hasPair Char.isAlpha Char.isDigit s.data = false →
      cleanResponse s = s) := by
  refine ⟨?_, ?_, ?_, ?_, ?_, ?_, ?_⟩
  · cases hg : pyStartsWith (genOf ω question ctx mem) "--ERROR" with
    | true => rw [appTurn_of_marker ω question ctx mem hg]
    | false => rw [appTurn_of_ok ω question ctx mem hg]
  · cases hg : pyStartsWith (genOf ω question ctx mem) "--ERROR" with
    | true => rw [consoleTurn_of_marker ω question ctx mem hg]
    | false => rw [consoleTurn_of_ok ω question ctx mem hg]
  · have h1 := filter_insertSpaceAt isDot Char.isUpper s.data
    have h2 := filter_insertSpaceAt Char.isLower Char.isUpper
      (insertSpaceAt isDot Char.isUpper s.data)
    have h3 := filter_insertSpaceAt Char.isAlpha Char.isDigit
      (insertSpaceAt Char.isLower Char.isUpper (insertSpaceAt isDot Char.isUpper s.data))
    exact congrArg String.mk (h3.trans (h2.trans h1))
  · exact hasPair_insertSpaceAt_preserved Char.isAlpha Char.isDigit isDot Char.isUpper
      (by decide) (by decide) _
      (hasPair_insertSpaceAt_preserved Char.isLower Char.isUpper isDot Char.isUpper
        (by decide) (by decide) _
        (hasPair_insertSpaceAt_self isDot Char.isUpper (by decide) (by decide)
          isDot_eq_false_of_isUpper s.data))
  · exact hasPair_insertSpaceAt_preserved Char.isAlpha Char.isDigit Char.isLower Char.isUpper
      (by decide) (by decide) _
      (hasPair_insertSpaceAt_self Char.isLower Char.isUpper (by decide) (by decide)
        isLower_eq_false_of_isUpper _)
  · exact hasPair_insertSpaceAt_self Char.isAlpha Char.isDigit (by decide) (by decide)
      isAlpha_eq_false_of_isDigit _
  · intro hd hl ha
    unfold cleanResponse
    rw [insertSpaceAt_of_no_pair isDot Char.isUpper s.data hd]
    rw [insertSpaceAt_of_no_pair Char.isLower Char.isUpper s.data hl]
    rw [insertSpaceAt_of_no_pair Char.isAlpha Char.isDigit s.data ha]

/-- C9 counterexample: a console turn whose summary is `a1` returns `a1`
unchanged, although the claimed normalization would produce `a 1` — the
normalization is not applied on the console variant's turns. -/
theorem c9_counterexample :
    (consoleTurn oracleA1 "q" "c" emptyWindowMem).answer = "a1" ∧
    cleanResponse (consoleTurn oracleA1 "q" "c" emptyWindowMem).rawAnswer = "a 1" ∧
    (consoleTurn oracleA1 "q" "c" emptyWindowMem).answer ≠
      cleanResponse (consoleTurn oracleA1 "q" "c" emptyWindowMem).rawAnswer :=
  ⟨by decide, by decide, by decide⟩

/-- C9 witness: the amended statement at concrete inputs, with the identity
hypotheses discharged on seam-free text. -/
theorem c9_witness :
    cleanResponse "ok" = "ok" ∧ dropSpaces (cleanResponse "a1") = dropSpaces "a1" :=
  ⟨(c9_amended oracleSuccess "q" "c" emptyBufferMem "ok").2.2.2.2.2.2
      (by decide) (by decide) (by decide),
   (c9_amended oracleSuccess "q" "c" emptyBufferMem "a1").2.2.1⟩

/-- C5, amended.  The result description is a deterministic four-way dispatch
on the terminal outcome exactly as claimed, except for the zero test: the
source compares the Python string form of the single cell against `"0"` and
`"0.0"`, so only a cell whose string form is exactly one of those two gets the
dedicated zero-value phrase — a cell that is numerically zero but renders
otherwise (such as the text `0.00`) is serialized as a table instead. -/
theorem c5_amended (df : Option Table) (err : Option String) (t : Table) (m : String) :
    (err = some m → m ≠ "" → result_content df err = "Error executing SQL: " ++ m) ∧
    ((err = none ∨ err = some "") → df = none →
      result_content df err = "Result: no rows returned.") ∧
    ((err = none ∨ err = some "") → df = some t → t.isEmptyDf = true →
      result_content df err = "Result: no rows returned.") ∧
    ((err = none ∨ err = some "") → df = some t → t.isEmptyDf = false →
      t.rows.length = 1 → t.cols.length = 1 →
      (pyStr t.cell00 = "0" ∨ pyStr t.cell00 = "0.0") →
      result_content df err = "Result: single value 0") ∧
    ((err = none ∨ err = some "") → df = some t → t.isEmptyDf = false →
      ¬((t.rows.length = 1 ∧ t.cols.length = 1) ∧
        (pyStr t.cell00 = "0" ∨ pyStr t.cell00 = "0.0")) →
      result_content df err = "Result Table:\n" ++ toCsv t) := by
  have hfalsy : (err = none ∨ err = some "") → ¬(err.getD "" ≠ "") := by
    intro he
    cases he with
    | inl h => subst h; simp
    | inr h => subst h; simp
  refine ⟨?_, ?_, ?_, ?_, ?_⟩
  · intro h1 h2
    subst h1
    unfold result_content
    rw [if_pos (show (some m).getD "" ≠ "" from h2)]
    rfl
  · intro he hdf
    subst hdf
    unfold result_content
    rw [if_neg (hfalsy he)]
  · intro he hdf hemp
    subst hdf
    unfold result_content
    rw [if_neg (hfalsy he)]
    simp only [hemp, if_true]
  · intro he hdf hemp hr hc hz
    subst hdf
    unfold result_content
    rw [if_neg (hfalsy he)]
    simp only [hemp, Bool.false_eq_true, if_false]
    rw [if_pos ⟨⟨hr, hc⟩, hz⟩]
  · intro he hdf hemp hn
    subst hdf
    unfold result_content
    rw [if_neg (hfalsy he)]
    simp only [hemp, Bool.false_eq_true, if_false]
    rw [if_neg hn]

/-- C5 counterexample: a 1x1 result whose single cell is the text `0.00` is
numerically zero, yet the source's string test sends it to the table branch,
not to the dedicated zero-value phrase. -/
theorem c5_counterexample :
    numericallyZero (Table.cell00 ⟨["x"], [[.pStr "0.00"]]⟩) = true ∧
    (⟨["x"], [[.pStr "0.00"]]⟩ : Table).rows.length = 1 ∧
    (⟨["x"], [[.pStr "0.00"]]⟩ : Table).cols.length = 1 ∧
    result_content (some ⟨["x"], [[.pStr "0.00"]]⟩) none = "Result Table:\nx\n0.00\n" ∧
    result_content (some ⟨["x"], [[.pStr "0.00"]]⟩) none ≠ "Result: single value 0" :=
  ⟨by decide, by decide, by decide, by decide, by decide⟩

/-- C5 witness: the amended dispatch at one concrete input per branch. -/
theorem c5_witness :
    result_content none (some "boom") = "Error executing SQL: " ++ "boom" ∧
    result_content none none = "Result: no rows returned." ∧
    result_content (some emptyTable) none = "Result: no rows returned." ∧
    result_content (some zeroTable) none = "Result: single value 0" ∧
    result_content (some tinyTable) none = "Result Table:\n" ++ toCsv tinyTable :=
  ⟨(c5_amended none (some "boom") tinyTable "boom").1 rfl (by decide),
   (c5_amended none none tinyTable "x").2.1 (Or.inl rfl) rfl,
   (c5_amended (some emptyTable) none emptyTable "x").2.2.1 (Or.inl rfl) rfl (by decide),
   (c5_amended (some zeroTable) none zeroTable "x").2.2.2.1 (Or.inl rfl) rfl (by decide)
     (by decide) (by decide) (Or.inl (by decide)),
   (c5_amended (some tinyTable) none tinyTable "x").2.2.2.2 (Or.inl rfl) rfl (by decide)
     (by decide)⟩

/-- C6, amended.  What the code guarantees: a 1x1 result rendering as `0`
produces the dedicated result description `Result: single value 0`, the
prompt quotes both canonical sentences verbatim as the instructed reply, and
when the summary service returns a canonical sentence the caller receives it
verbatim (the UI clean-up leaves both sentences unchanged).  The answer
itself, however, is the model's output: the code performs no check, so the
verbatim equality claimed holds only for a compliant model (and "no
answerable context in prior memory" is a model-level condition with no
counterpart in the code). -/
theorem c6_amended (ω : Oracles) (question sqlQ ctx : String) (mem : MemoryObj) (t : Table) :
    (t.rows.length = 1 → t.cols.length = 1 → pyStr t.cell00 = "0" →
      result_content (some t) none = "Result: single value 0") ∧
    (∃ a b, SUMMARY_SYSTEM_INSTRUCTIONS = a ++ CANON_ZERO ++ b) ∧
    (∃ a b, SUMMARY_SYSTEM_INSTRUCTIONS = a ++ CANON_NO_ANSWER ++ b) ∧
    (ω.summaryRaw (summaryMessages (renderHistory mem) question sqlQ
        (result_content (some t) none) ctx) = .ok CANON_ZERO →
      (summarize_result ω question sqlQ (some t) none ctx mem).1 = CANON_ZERO) ∧
    (∀ u : Table, u.rows = [] →
      ω.summaryRaw (summaryMessages (renderHistory mem) question sqlQ
          (result_content (some u) none) ctx) = .ok CANON_NO_ANSWER →
      (summarize_result ω question sqlQ (some u) none ctx mem).1 = CANON_NO_ANSWER) ∧
    cleanResponse CANON_ZERO = CANON_ZERO ∧
    cleanResponse CANON_NO_ANSWER = CANON_NO_ANSWER := by
  refine ⟨?_, ?_, ?_, ?_, ?_, by decide, by decide⟩
  · intro hr hc hz
    unfold result_content
    rw [if_neg (by simp)]
    have hemp : t.isEmptyDf = false := by simp [Table.isEmptyDf, hr, hc]
    simp only [hemp, Bool.false_eq_true, if_false]
    rw [if_pos ⟨⟨hr, hc⟩, Or.inl hz⟩]
  · exact ⟨SUMMARY_RULES_A ++ CANON_NO_ANSWER ++ SUMMARY_RULES_B, SUMMARY_RULES_C,
      by simp [SUMMARY_SYSTEM_INSTRUCTIONS, String.append_assoc]⟩
  · exact ⟨SUMMARY_RULES_A, SUMMARY_RULES_B ++ CANON_ZERO ++ SUMMARY_RULES_C,
      by simp [SUMMARY_SYSTEM_INSTRUCTIONS, String.append_assoc]⟩
  · intro h
    unfold summarize_result
    simp only [h]
    decide
  · intro u hu h
    unfold summarize_result
    simp only [h]
    decide

/-- C6 counterexample: on a turn whose terminal outcome is a 1x1 zero result,
a summary model that answers `Nope.` makes the caller-visible answer `Nope.`,
not the canonical zero-match sentence — the verbatim equality is not enforced
by the code. -/
theorem c6_counterexample :
    (appTurn oracleZeroNope "q" "c" emptyBufferMem).dfForSummary = some zeroTable ∧
    zeroTable.rows.length = 1 ∧
    zeroTable.cols.length = 1 ∧
    pyStr zeroTable.cell00 = "0" ∧
    (appTurn oracleZeroNope "q" "c" emptyBufferMem).answer = "Nope." ∧
    (appTurn oracleZeroNope "q" "c" emptyBufferMem).answer ≠ CANON_ZERO :=
  ⟨by decide, by decide, by decide, by decide, by decide, by decide⟩

/-- C6 witness: the amended statement at compliant service behaviors for both
canonical cases. -/
theorem c6_witness :
    (summarize_result oracleZeroCanon "q" "S" (some zeroTable) none "c" emptyBufferMem).1 =
      CANON_ZERO ∧
    (summarize_result oracleEmptyCanon "q" "S" (some emptyTable) none "c" emptyBufferMem).1 =
      CANON_NO_ANSWER ∧
    result_content (some zeroTable) none = "Result: single value 0" :=
  ⟨(c6_amended oracleZeroCanon "q" "S" "c" emptyBufferMem zeroTable).2.2.2.1 rfl,
   (c6_amended oracleEmptyCanon "q" "S" "c" emptyBufferMem zeroTable).2.2.2.2.1
     emptyTable rfl rfl,
   (c6_amended oracleZeroCanon "q" "S" "c" emptyBufferMem zeroTable).1
     (by decide) (by decide) (by decide)⟩

/-- C7, confirmed against the spec-modelled memory.  The window memory is
bounded with oldest-first eviction: after appending any sequence of turns to
a fresh `k`-window memory, loading serves exactly the last `min k N` turns in
their original insertion order (all `N` of them while `N ≤ k`), and a turn
old enough to be evicted never reappears — after any further appends, every
loaded turn comes from the surviving suffix or the newly appended turns. -/
theorem c7_window_roundtrip (k : Nat) (ts more : List (String × String)) :
    loadHistory (appendTurns ⟨some k, []⟩ ts) = ts.drop (ts.length - k) ∧
    (ts.length ≤ k → loadHistory (appendTurns ⟨some k, []⟩ ts) = ts) ∧
    loadHistory (appendTurns (appendTurns ⟨some k, []⟩ ts) more) =
      (ts ++ more).drop (ts.length + more.length - k) ∧
    (∀ p ∈ loadHistory (appendTurns (appendTurns ⟨some k, []⟩ ts) more),
      p ∈ ts.drop (ts.length - k) ++ more) := by
  obtain ⟨ht1, hw1⟩ := appendTurns_spec ts ⟨some k, []⟩
  obtain ⟨ht2, hw2⟩ := appendTurns_spec more (appendTurns ⟨some k, []⟩ ts)
  have hL1 : loadHistory (appendTurns ⟨some k, []⟩ ts) = ts.drop (ts.length - k) := by
    rw [loadHistory_window _ k (by rw [hw1]), ht1]
    simp
  have hL2 : loadHistory (appendTurns (appendTurns ⟨some k, []⟩ ts) more) =
      (ts ++ more).drop (ts.length + more.length - k) := by
    rw [loadHistory_window _ k (by rw [hw2, hw1]), ht2, ht1]
    simp
  refine ⟨hL1, ?_, hL2, ?_⟩
  · intro h
    rw [hL1, Nat.sub_eq_zero_of_le h]
    simp
  · intro p hp
    rw [hL2] at hp
    have hsub : (ts ++ more).drop (ts.length + more.length - k) ⊆
        (ts ++ more).drop (ts.length - k) :=
      List.drop_subset_drop_left _ (by omega)
    have hmem := hsub hp
    rwa [List.drop_append_of_le_length (Nat.sub_le _ _)] at hmem

/-- C7 witness: the round-trip and the eviction containment at concrete
window sizes and turn sequences. -/
theorem c7_witness :
    loadHistory (appendTurns ⟨some 3, []⟩ [("q1", "a1")]) = [("q1", "a1")] ∧
    ("q3", "a3") ∈ ([("q2", "a2")] : List (String × String)) ++ [("q3", "a3")] :=
  ⟨(c7_window_roundtrip 3 [("q1", "a1")] []).2.1 (by decide),
   by
    have h := (c7_window_roundtrip 1 [("q1", "a1"), ("q2", "a2")] [("q3", "a3")]).2.2.2
      ("q3", "a3") (by decide)
    exact h⟩

end DataQueryBot
